import Mathlib

/-!
Shallow embedding of the credential-synchronization core of the gdrive MCP
server (src/index.ts) and proofs about its specified behavior.

Modelling conventions:
- JavaScript values that flow through the token path are modelled by `Json`
  (JSON numbers as `Int`; only truthiness of numbers matters here).
- `JSON.parse` is a parameter `p : String → Option Json` of the file-reading
  function (`none` models a parse exception); every claim quantifies over it
  or instantiates it with a concrete function.
- The mutable process globals `googleAuthClient` and `currentAuthToken`
  (src/index.ts lines 23-25) form the state type `AuthState`.  The call
  `google.options(\x7bauth: googleAuthClient\x7d)` (line 55) aliases the global
  drive client to `googleAuthClient`, so the ambient auth used by `drive`
  is exactly the `googleAuthClient` field.
- A thrown JavaScript exception is an `Except.error`; `try/catch` blocks are
  explicit matches on the `Except` result.
-/

namespace GDrive

/-- JSON values as produced by a successful `JSON.parse`.  Numbers are
modelled as `Int`: only the truthiness of parsed values is consumed by the
code under study. -/
inductive Json where
  | null : Json
  | bool : Bool → Json
  | num : Int → Json
  | str : String → Json
  | arr : List Json → Json
  | obj : List (String × Json) → Json

/-- JavaScript truthiness of a JSON value. -/
def jsTruthy : Json → Bool
  | Json.null => false
  | Json.bool b => b
  | Json.num n => n != 0
  | Json.str s => s != ""
  | Json.arr _ => true
  | Json.obj _ => true

/-- Truthiness of a possibly-undefined value (`none` models `undefined`). -/
def jsTruthyO : Option Json → Bool
  | none => false
  | some v => jsTruthy v

/-- JavaScript property access `j.k` on parsed JSON values for which the
access does not throw: field lookup on an object (with the last duplicate
key winning, as in `JSON.parse`), and `undefined` (`none`) on the other
non-null values (property access on a boxed primitive or an array yields
`undefined`).  Access on JSON `null` throws a TypeError instead; that
failure mode is modelled by `jsGetTry`. -/
def jsGet (j : Json) (k : String) : Option Json :=
  match j with
  | Json.obj fields => (fields.reverse.find? (fun q => q.1 == k)).map (·.2)
  | _ => none

/-- JavaScript property access `j.k` together with its failure mode: on
JSON `null` the access throws a TypeError (`Except.error`); on every
other value it yields `jsGet j k`. -/
def jsGetTry (j : Json) (k : String) : Except Unit (Option Json) :=
  match j with
  | Json.null => Except.error ()
  | _ => Except.ok (jsGet j k)

/-- JavaScript `String.prototype.trim`: strips leading and trailing
whitespace characters.  (JavaScript trims the full Unicode whitespace
class; the artifact contents relevant here use the standard ASCII
whitespace characters, which `Char.isWhitespace` covers.) -/
def jsTrim (s : String) : String :=
  String.mk (((s.data.dropWhile Char.isWhitespace).reverse.dropWhile Char.isWhitespace).reverse)

/-- The credentials object installed by `setCredentials`
(src/index.ts lines 70-77): an access token and an optional refresh token. -/
structure Credentials where
  access_token : Json
  refresh_token : Option Json

/-- State of one `OAuth2Client` instance: the constructor arguments
(client id and optional client secret) and the credentials installed by the
latest `setCredentials` call (`none` before the first call). -/
structure OAuth2ClientState where
  clientId : String
  clientSecret : Option String
  credentials : Option Credentials

/-- The mutable process globals of src/index.ts: `googleAuthClient`
(line 25, also the auth installed into `google.options` at line 55) and
`currentAuthToken` (line 23). -/
structure AuthState where
  googleAuthClient : Option OAuth2ClientState
  currentAuthToken : Option Json

/-- Both globals start as `null` (src/index.ts lines 23-25). -/
def initialAuthState : AuthState := { googleAuthClient := none, currentAuthToken := none }

/-- The process environment, as a list of variable/value pairs. -/
def Env : Type := List (String × String)

/-- `process.env.k`: `none` models an unset variable. -/
def envGet (env : Env) (k : String) : Option String :=
  (env.find? (fun q => q.1 == k)).map (·.2)

/-- `initializeGoogleAuthClient` (src/index.ts lines 29-57).  Reads
`GOOGLE_CLIENT_ID` and `GOOGLE_CLIENT_SECRET`; if either is unset or empty
(JavaScript falsy) it logs a warning and returns leaving the state
unchanged; otherwise it installs a fresh client with no credentials and
registers it as the global drive auth via `google.options`. -/
def initializeGoogleAuthClient (env : Env) (st : AuthState) : AuthState :=
  match envGet env "GOOGLE_CLIENT_ID", envGet env "GOOGLE_CLIENT_SECRET" with
  | some cid, some sec =>
    if cid = "" then st
    else if sec = "" then st
    else
      let freshClient : OAuth2ClientState := { clientId := cid, clientSecret := some sec, credentials := none }
      { st with googleAuthClient := some freshClient }
  | some _, none => st
  | none, _ => st

/-- The credentials object built by `updateTokensOnClient`
(src/index.ts lines 70-73): the refresh token is included only when it is
truthy (`if (refreshToken)`). -/
def buildCredentials (accessToken : Json) (refreshToken : Option Json) : Credentials :=
  { access_token := accessToken
    refresh_token := if jsTruthyO refreshToken then refreshToken else none }

/-- `updateTokensOnClient` (src/index.ts lines 60-85).  Throws when the
global client was never initialized (line 64); otherwise records the access
token in `currentAuthToken` and replaces the client credentials wholesale
via `setCredentials` (line 77). -/
def updateTokensOnClient (accessToken : Json) (refreshToken : Option Json)
    (st : AuthState) : Except Unit AuthState :=
  match st.googleAuthClient with
  | none => Except.error ()
  | some c =>
    Except.ok
      { googleAuthClient := some { c with credentials := some (buildCredentials accessToken refreshToken) }
        currentAuthToken := some accessToken }

/-- The plain-text branch reached through `catch (jsonError)`
(src/index.ts lines 110-114): treat the whole trimmed content as a bare
access token.  If that update itself throws (uninitialized client), the
outer handler at line 119 swallows the error and the state is left
unchanged. -/
def plainTextTokenFallback (fileContent : String) (st : AuthState) : AuthState :=
  match updateTokensOnClient (Json.str fileContent) none st with
  | Except.ok st2 => st2
  | Except.error _ => st

/-- `readAndUpdateTokenFromFile` (src/index.ts lines 88-122).
`file = none` models an absent token file (the `existsSync` guard at
line 90).  The content is trimmed (line 97); empty content is skipped
(line 116).  Otherwise the code tries `JSON.parse` (modelled by `p`): a
parse exception is caught at line 110 and the whole trimmed content is
installed as a bare access token (line 113).  On a successful parse, the
property access `tokenData.access_token` at line 103 throws a TypeError
when the parsed value is JSON `null`; that throw is caught by the same
`catch (jsonError)` and likewise falls through to the bare-token branch.
A non-null parsed value without a truthy `access_token` only logs a
warning (line 108, no update); a truthy `access_token` is installed
together with the `refresh_token` field (line 105).  Any throw out of
`updateTokensOnClient` inside the JSON branch is caught at line 110 and
retried through the plain-text branch; a throw out of the plain-text
branch is caught by the outer handler at line 119.  In every
caught-and-exhausted case the state is left unchanged. -/
def readAndUpdateTokenFromFile (p : String → Option Json) (file : Option String)
    (st : AuthState) : AuthState :=
  match file with
  | none => st
  | some content =>
    let fileContent := jsTrim content
    if fileContent = "" then st
    else
      match p fileContent with
      | some tokenData =>
        match jsGetTry tokenData "access_token" with
        | Except.error _ => plainTextTokenFallback fileContent st
        | Except.ok none => st
        | Except.ok (some tok) =>
          if jsTruthy tok then
            match jsGetTry tokenData "refresh_token" with
            | Except.error _ => plainTextTokenFallback fileContent st
            | Except.ok r =>
              match updateTokensOnClient tok r st with
              | Except.ok st2 => st2
              | Except.error _ => plainTextTokenFallback fileContent st
          else st
      | none => plainTextTokenFallback fileContent st

/-- The credential record currently installed on the ambient client. -/
def credentialsOf (st : AuthState) : Option Credentials :=
  st.googleAuthClient.bind (fun c => c.credentials)

/-- The auth carried by the module-level `drive` client
(src/index.ts line 149): it is the client registered through
`google.options` at initialization, i.e. the ambient `googleAuthClient`
(`none` when initialization was skipped, in which case requests go out
unauthenticated). -/
def driveGlobalAuth (st : AuthState) : Option OAuth2ClientState :=
  st.googleAuthClient

/-- Client selection inside `readFileContent` (src/index.ts line 190):
`authClientOverride ? google.drive(\x7b..., auth: authClientOverride\x7d) : drive`. -/
def readFileContentClient (authClientOverride : Option OAuth2ClientState)
    (st : AuthState) : Option OAuth2ClientState :=
  match authClientOverride with
  | some c => some c
  | none => driveGlobalAuth st

/-- Arguments of a `gdrive_search` tool call.  The handler casts the
arguments object to `\x7b query: string \x7d` (line 328); the object may carry
further fields, in particular a caller-supplied token, which is modelled
here so that statements can quantify over calls that do supply one. -/
structure SearchArgs where
  query : String
  token : Option String

/-- Arguments of a `gdrive_read_file` tool call (cast at line 371), again
with a possible caller-supplied token field. -/
structure ReadFileArgs where
  file_id : String
  token : Option String

/-- `createTemporaryClient` (src/index.ts lines 316-325), threaded through
the process state to make its effect on the globals explicit.  It reads
`GOOGLE_CLIENT_ID` from the environment, returns `null` when that is
falsy, and otherwise builds a fresh client carrying the supplied access
token as sole credential; `setCredentials` is invoked on the temporary
object only, so the state component passes through each step untouched. -/
def createTemporaryClient (env : Env) (accessToken : String)
    (st : AuthState) : Option OAuth2ClientState × AuthState :=
  match envGet env "GOOGLE_CLIENT_ID" with
  | none => (none, st)
  | some cid =>
    if cid = "" then (none, st)
    else
      let tempClient : OAuth2ClientState :=
        { clientId := cid
          clientSecret := none
          credentials := some { access_token := Json.str accessToken, refresh_token := none } }
      (some tempClient, st)

/-- The client that executes the Drive request of a `gdrive_search` call:
src/index.ts line 332 is `const driveClient = drive;` (with the comment
"Always use the globally configured client"), so the globally configured
client is used whatever the arguments contain. -/
def gdriveSearchClient (st : AuthState) (_args : SearchArgs) : Option OAuth2ClientState :=
  driveGlobalAuth st

/-- The client that executes the Drive requests of a `gdrive_read_file`
call: line 383 invokes `readFileContent(fileId)` with no
`authClientOverride`, so selection falls through to the global client. -/
def gdriveReadFileClient (st : AuthState) (_args : ReadFileArgs) : Option OAuth2ClientState :=
  readFileContentClient none st

/-- The credential-relevant effect of `loadCredentialsAndRunServer`
(src/index.ts lines 412-428): initialize the ambient client from the
environment, then `watchTokenFile` performs one synchronous initial
read-and-apply of the token artifact (lines 125-130) before the server
starts serving. -/
def startupState (env : Env) (p : String → Option Json) (file : Option String) : AuthState :=
  readAndUpdateTokenFromFile p file (initializeGoogleAuthClient env initialAuthState)

/-- A concrete ambient client holding an installed credential, used by the
concrete counterexamples below. -/
def ambientClient : OAuth2ClientState :=
  { clientId := "cid"
    clientSecret := some "secret"
    credentials := some { access_token := Json.str "ambient-token", refresh_token := some (Json.str "refresh-1") } }

/-- A process state in which `ambientClient` is the configured global
client. -/
def ambientState : AuthState :=
  { googleAuthClient := some ambientClient
    currentAuthToken := some (Json.str "ambient-token") }

/-- A freshly initialized state: client configured, no credentials yet. -/
def freshState : AuthState :=
  { googleAuthClient := some { clientId := "cid", clientSecret := some "sec", credentials := none }
    currentAuthToken := none }

/-- `freshState` after installing access token `abc` with refresh token `r`. -/
def midState : AuthState :=
  { googleAuthClient := some
      { clientId := "cid"
        clientSecret := some "sec"
        credentials := some { access_token := Json.str "abc", refresh_token := some (Json.str "r") } }
    currentAuthToken := some (Json.str "abc") }

/-- `midState` after installing the bare access token `xyz`. -/
def endState : AuthState :=
  { googleAuthClient := some
      { clientId := "cid"
        clientSecret := some "sec"
        credentials := some { access_token := Json.str "xyz", refresh_token := none } }
    currentAuthToken := some (Json.str "xyz") }

/-- Helper: starting from the initial (credential-free) state,
initialization never installs a credential record or a current token,
whatever the environment holds. -/
theorem initialize_from_initial_no_credentials (env : Env) :
    credentialsOf (initializeGoogleAuthClient env initialAuthState) = none ∧
    (initializeGoogleAuthClient env initialAuthState).currentAuthToken = none := by
  unfold initializeGoogleAuthClient
  rcases h1 : envGet env "GOOGLE_CLIENT_ID" with _ | cid
  · simp [credentialsOf, initialAuthState]
  · rcases h2 : envGet env "GOOGLE_CLIENT_SECRET" with _ | sec
    · simp [credentialsOf, initialAuthState]
    · simp only [credentialsOf, initialAuthState]
      split_ifs <;> simp

/-- Claim C2: after `update(R1)` followed by `update(R2)` the installed
ambient credential record is exactly the one determined by `R2` — both its
access token and its refresh token — with no field surviving from `R1`,
and the tracked current token is `R2`'s access token.
(`setCredentials` at src/index.ts line 77 replaces the credentials object
wholesale.) -/
theorem second_update_overwrites_first
    (a1 a2 : Json) (r1 r2 : Option Json) (st st1 st2 : AuthState)
    (h1 : updateTokensOnClient a1 r1 st = Except.ok st1)
    (h2 : updateTokensOnClient a2 r2 st1 = Except.ok st2) :
    credentialsOf st2 = some (buildCredentials a2 r2) ∧
    st2.currentAuthToken = some a2 := by
  rcases hc : st.googleAuthClient with _ | c
  · simp only [updateTokensOnClient, hc] at h1
    cases h1
  · simp only [updateTokensOnClient, hc, Except.ok.injEq] at h1
    subst h1
    simp only [updateTokensOnClient, Except.ok.injEq] at h2
    subst h2
    simp [credentialsOf]

/-- Witness for C2 at the concrete scenario from the claim: install the
JSON record (access `abc`, refresh `r`), then the bare record `xyz`; the
result is exactly the record for `xyz` with no refresh token. -/
theorem second_update_overwrites_first_witness :
    credentialsOf endState = some (buildCredentials (Json.str "xyz") none) ∧
    endState.currentAuthToken = some (Json.str "xyz") :=
  second_update_overwrites_first (Json.str "abc") (Json.str "xyz")
    (some (Json.str "r")) none freshState midState endState rfl rfl

/-- Claim C3: nonempty artifact content that fails JSON parsing installs
the credential record whose access token is the trimmed content and whose
refresh token is absent (src/index.ts lines 110-114). -/
theorem plain_text_artifact_installs_trimmed_token
    (p : String → Option Json) (content : String) (st : AuthState) (c : OAuth2ClientState)
    (hc : st.googleAuthClient = some c)
    (hne : jsTrim content ≠ "")
    (hp : p (jsTrim content) = none) :
    readAndUpdateTokenFromFile p (some content) st =
      { googleAuthClient := some { c with credentials := some { access_token := Json.str (jsTrim content), refresh_token := none } }
        currentAuthToken := some (Json.str (jsTrim content)) } := by
  simp [readAndUpdateTokenFromFile, hne, hp, plainTextTokenFallback,
    updateTokensOnClient, hc, buildCredentials, jsTruthyO]

/-- Witness for C3: content `"  xyz  "` with a failing parse installs the
record with access token `xyz` and no refresh token. -/
theorem plain_text_artifact_installs_trimmed_token_witness :
    readAndUpdateTokenFromFile (fun _ => none) (some "  xyz  ") ambientState =
      { googleAuthClient := some { ambientClient with credentials := some { access_token := Json.str (jsTrim "  xyz  "), refresh_token := none } }
        currentAuthToken := some (Json.str (jsTrim "  xyz  ")) } :=
  plain_text_artifact_installs_trimmed_token (fun _ => none) "  xyz  "
    ambientState ambientClient rfl (by decide) rfl

/-- Claim C4 counterexample: artifact content `12345` parses to a JSON
number — well-formed JSON, but neither a mapping nor an incomplete
mapping — yet the code drops it through the warn branch (property access
yields `undefined` without throwing): the prior state survives unchanged
and the bare-token record the claim demands is not installed. -/
theorem parsed_scalar_not_installed_as_bare_token :
    readAndUpdateTokenFromFile (fun s => if s = "12345" then some (Json.num 12345) else none)
      (some "12345") ambientState = ambientState ∧
    credentialsOf ambientState ≠ some { access_token := Json.str "12345", refresh_token := none } := by
  refine ⟨rfl, ?_⟩
  intro h
  simp [credentialsOf, ambientState, ambientClient] at h

/-- Claim C4 (amended): processing never throws (the model is total,
mirroring the handlers at src/index.ts lines 110 and 119), and for
nonempty trimmed content the classification is: a failed parse is
accepted as the bare-token fallback (the whole trimmed content becomes
the access token); content parsing to JSON `null` is likewise accepted as
the bare-token fallback, because the field access throws a TypeError that
the catch turns into the plain-text branch; and every other successfully
parsed value without a truthy `access_token` — mapping or not — is
dropped without an update. -/
theorem artifact_fallback_and_drop_classification
    (p : String → Option Json) (content : String) (st : AuthState) (c : OAuth2ClientState)
    (hc : st.googleAuthClient = some c)
    (hne : jsTrim content ≠ "") :
    (p (jsTrim content) = none →
      readAndUpdateTokenFromFile p (some content) st =
        { googleAuthClient := some { c with credentials := some { access_token := Json.str (jsTrim content), refresh_token := none } }
          currentAuthToken := some (Json.str (jsTrim content)) }) ∧
    (p (jsTrim content) = some Json.null →
      readAndUpdateTokenFromFile p (some content) st =
        { googleAuthClient := some { c with credentials := some { access_token := Json.str (jsTrim content), refresh_token := none } }
          currentAuthToken := some (Json.str (jsTrim content)) }) ∧
    (∀ j, p (jsTrim content) = some j → j ≠ Json.null →
      jsTruthyO (jsGet j "access_token") = false →
      readAndUpdateTokenFromFile p (some content) st = st) := by
  refine ⟨?_, ?_, ?_⟩
  · intro hp
    simp [readAndUpdateTokenFromFile, hne, hp, plainTextTokenFallback,
      updateTokensOnClient, hc, buildCredentials, jsTruthyO]
  · intro hp
    simp [readAndUpdateTokenFromFile, hne, hp, jsGetTry, plainTextTokenFallback,
      updateTokensOnClient, hc, buildCredentials, jsTruthyO]
  · intro j hp hnull hfalse
    have hjt : jsGetTry j "access_token" = Except.ok (jsGet j "access_token") := by
      cases j with
      | null => exact absurd rfl hnull
      | bool b => rfl
      | num n => rfl
      | str s2 => rfl
      | arr xs => rfl
      | obj fields => rfl
    rcases hg : jsGet j "access_token" with _ | tok
    · simp [readAndUpdateTokenFromFile, hne, hp, hjt, hg]
    · rw [hg] at hfalse
      simp only [jsTruthyO] at hfalse
      simp [readAndUpdateTokenFromFile, hne, hp, hjt, hg, hfalse]

/-- Witness for the amended C4: unparseable content `garbage-tok` is
installed as a bare token; content `null` (parsing to JSON `null`) is
also installed as the bare token `null`; content `42` (parsing to a JSON
number) is dropped. -/
theorem artifact_fallback_and_drop_classification_witness :
    readAndUpdateTokenFromFile (fun _ => none) (some "garbage-tok") ambientState =
      { googleAuthClient := some { ambientClient with credentials := some { access_token := Json.str (jsTrim "garbage-tok"), refresh_token := none } }
        currentAuthToken := some (Json.str (jsTrim "garbage-tok")) } ∧
    readAndUpdateTokenFromFile (fun s => if s = "null" then some Json.null else none) (some "null") ambientState =
      { googleAuthClient := some { ambientClient with credentials := some { access_token := Json.str (jsTrim "null"), refresh_token := none } }
        currentAuthToken := some (Json.str (jsTrim "null")) } ∧
    readAndUpdateTokenFromFile (fun s => if s = "42" then some (Json.num 42) else none)
      (some "42") ambientState = ambientState := by
  refine ⟨?_, ?_, ?_⟩
  · exact (artifact_fallback_and_drop_classification (fun _ => none) "garbage-tok"
      ambientState ambientClient rfl (by decide)).1 rfl
  · exact (artifact_fallback_and_drop_classification
      (fun s => if s = "null" then some Json.null else none) "null"
      ambientState ambientClient rfl (by decide)).2.1 rfl
  · exact (artifact_fallback_and_drop_classification
      (fun s => if s = "42" then some (Json.num 42) else none) "42"
      ambientState ambientClient rfl (by decide)).2.2 _ rfl
      (fun h => Json.noConfusion h) rfl

/-- Claim C5: an absent artifact, empty or whitespace-only content, and
content parsing to a JSON mapping without a truthy `access_token` all
leave the previous state — whatever it is, including its installed
credential — unchanged; the processing function is total, so the watcher
callback cannot crash. -/
theorem empty_or_invalid_artifact_preserves_state
    (p : String → Option Json) (st : AuthState) :
    readAndUpdateTokenFromFile p none st = st ∧
    (∀ s, jsTrim s = "" → readAndUpdateTokenFromFile p (some s) st = st) ∧
    (∀ s fields, p (jsTrim s) = some (Json.obj fields) →
      jsTruthyO (jsGet (Json.obj fields) "access_token") = false →
      readAndUpdateTokenFromFile p (some s) st = st) := by
  refine ⟨rfl, ?_, ?_⟩
  · intro s hs
    simp [readAndUpdateTokenFromFile, hs]
  · intro s fields hp hfalse
    by_cases hs : jsTrim s = ""
    · simp [readAndUpdateTokenFromFile, hs]
    · rcases hg : jsGet (Json.obj fields) "access_token" with _ | tok
      · simp [readAndUpdateTokenFromFile, hs, hp, jsGetTry, hg]
      · rw [hg] at hfalse
        simp only [jsTruthyO] at hfalse
        simp [readAndUpdateTokenFromFile, hs, hp, jsGetTry, hg, hfalse]

/-- Witness for C5: an absent artifact, whitespace-only content, and a
mapping without `access_token` all leave the ambient state untouched. -/
theorem empty_or_invalid_artifact_preserves_state_witness :
    readAndUpdateTokenFromFile (fun _ => none) none ambientState = ambientState ∧
    readAndUpdateTokenFromFile (fun _ => none) (some "   ") ambientState = ambientState ∧
    readAndUpdateTokenFromFile
      (fun s => if s = "struct-5" then some (Json.obj [("foo", Json.str "bar")]) else none)
      (some "struct-5") ambientState = ambientState := by
  have h := empty_or_invalid_artifact_preserves_state (fun _ => none) ambientState
  have h2 := empty_or_invalid_artifact_preserves_state
    (fun s => if s = "struct-5" then some (Json.obj [("foo", Json.str "bar")]) else none)
    ambientState
  exact ⟨h.1, h.2.1 "   " (by decide), h2.2.2 "struct-5" [("foo", Json.str "bar")] rfl rfl⟩

/-- Claim C10: artifact content that parses to a JSON object whose
`access_token` field is the empty string performs no update: the truthy
check at src/index.ts line 103 treats the empty string like a missing
field, so an empty access token can never be installed through the
structured form. -/
theorem empty_access_token_field_not_installed
    (p : String → Option Json) (s : String) (st : AuthState) (j : Json)
    (hp : p (jsTrim s) = some j)
    (hg : jsGet j "access_token" = some (Json.str "")) :
    readAndUpdateTokenFromFile p (some s) st = st := by
  cases j with
  | null => exact absurd hg (by simp [jsGet])
  | bool b => exact absurd hg (by simp [jsGet])
  | num n => exact absurd hg (by simp [jsGet])
  | str s2 => exact absurd hg (by simp [jsGet])
  | arr xs => exact absurd hg (by simp [jsGet])
  | obj fields =>
    by_cases hs : jsTrim s = ""
    · simp [readAndUpdateTokenFromFile, hs]
    · simp [readAndUpdateTokenFromFile, hs, hp, jsGetTry, hg, jsTruthy]

/-- Witness for C10 at a concrete object with an empty `access_token`. -/
theorem empty_access_token_field_not_installed_witness :
    readAndUpdateTokenFromFile
      (fun s => if s = "payload" then some (Json.obj [("access_token", Json.str "")]) else none)
      (some "payload") ambientState = ambientState :=
  empty_access_token_field_not_installed _ "payload" ambientState
    (Json.obj [("access_token", Json.str "")]) rfl rfl

/-- Claim C1 counterexample: a `gdrive_search` call and a
`gdrive_read_file` call that each supply an explicit override token are
nevertheless executed with the ambient globally-configured client — whose
installed credential is the ambient token together with a refresh token —
and not with a client whose sole credential is the supplied token. -/
theorem override_token_ignored_by_handlers :
    gdriveSearchClient ambientState { query := "q", token := some "override-token" } = some ambientClient ∧
    gdriveReadFileClient ambientState { file_id := "f", token := some "override-token" } = some ambientClient ∧
    ambientClient.credentials ≠ some { access_token := Json.str "override-token", refresh_token := none } := by
  refine ⟨rfl, rfl, ?_⟩
  intro h
  simp [ambientClient] at h

/-- Claim C1 (amended): both tool handlers always execute their Drive
requests with the globally configured ambient client, whatever the call
arguments contain — a supplied token is ignored (src/index.ts lines 332
and 383).  The helper `createTemporaryClient`, which would build a client
whose sole credential is the supplied token, exists but is invoked by
neither handler. -/
theorem handlers_always_use_ambient_client
    (st : AuthState) (sa : SearchArgs) (ra : ReadFileArgs) (env : Env) (tok : String) :
    gdriveSearchClient st sa = driveGlobalAuth st ∧
    gdriveReadFileClient st ra = driveGlobalAuth st ∧
    (∀ c, (createTemporaryClient env tok st).1 = some c →
      c.credentials = some { access_token := Json.str tok, refresh_token := none }) := by
  refine ⟨rfl, rfl, ?_⟩
  intro c hcl
  unfold createTemporaryClient at hcl
  rcases he : envGet env "GOOGLE_CLIENT_ID" with _ | cid
  · rw [he] at hcl
    cases hcl
  · rw [he] at hcl
    by_cases hcid : cid = ""
    · simp [hcid] at hcl
    · simp only [if_neg hcid] at hcl
      injection hcl with hcl
      rw [← hcl]

/-- Witness for the amended C1: a call carrying a token still uses the
ambient client, and a client actually built by `createTemporaryClient`
does carry the supplied token as sole credential. -/
theorem handlers_always_use_ambient_client_witness :
    gdriveSearchClient ambientState { query := "q", token := some "tok-w" } = driveGlobalAuth ambientState ∧
    ({ clientId := "cid", clientSecret := none, credentials := some { access_token := Json.str "tok-w", refresh_token := none } } : OAuth2ClientState).credentials =
      some { access_token := Json.str "tok-w", refresh_token := none } := by
  have h := handlers_always_use_ambient_client ambientState
    { query := "q", token := some "tok-w" } { file_id := "f", token := some "tok-w" }
    [("GOOGLE_CLIENT_ID", "cid")] "tok-w"
  exact ⟨h.1, h.2.2 _ rfl⟩

/-- Claim C6 counterexample: with `GOOGLE_CLIENT_ID` set but
`GOOGLE_CLIENT_SECRET` absent, initialization leaves the ambient client
unconfigured (the guard at src/index.ts lines 41-45 returns early), a
subsequently delivered token is rejected with a thrown error, and even a
full startup whose artifact already holds a bare token installs no
credential. -/
theorem missing_secret_blocks_token_use :
    initializeGoogleAuthClient [("GOOGLE_CLIENT_ID", "cid")] initialAuthState = initialAuthState ∧
    updateTokensOnClient (Json.str "abc") none
      (initializeGoogleAuthClient [("GOOGLE_CLIENT_ID", "cid")] initialAuthState) = Except.error () ∧
    credentialsOf (startupState [("GOOGLE_CLIENT_ID", "cid")] (fun _ => none) (some "abc")) = none :=
  ⟨rfl, rfl, rfl⟩

/-- Claim C6 (amended): ambient authentication requires both `client_id`
and `client_secret`.  When the secret is absent, initialization leaves
the state unchanged, and if no client was previously installed a
subsequently delivered credential record is not installed: the update
fails with the not-configured error. -/
theorem ambient_init_requires_client_secret
    (env : Env) (st : AuthState) (cid : String) (a : Json) (r : Option Json)
    (hid : envGet env "GOOGLE_CLIENT_ID" = some cid)
    (hsec : envGet env "GOOGLE_CLIENT_SECRET" = none) :
    initializeGoogleAuthClient env st = st ∧
    (st.googleAuthClient = none →
      updateTokensOnClient a r (initializeGoogleAuthClient env st) = Except.error ()) := by
  have hinit : initializeGoogleAuthClient env st = st := by
    simp [initializeGoogleAuthClient, hid, hsec]
  refine ⟨hinit, ?_⟩
  intro h
  rw [hinit]
  simp [updateTokensOnClient, h]

/-- Witness for the amended C6 at a concrete environment with only the
client id configured. -/
theorem ambient_init_requires_client_secret_witness :
    initializeGoogleAuthClient [("GOOGLE_CLIENT_ID", "cid-w")] initialAuthState = initialAuthState ∧
    updateTokensOnClient (Json.str "tok-6") none
      (initializeGoogleAuthClient [("GOOGLE_CLIENT_ID", "cid-w")] initialAuthState) = Except.error () := by
  have h := ambient_init_requires_client_secret [("GOOGLE_CLIENT_ID", "cid-w")]
    initialAuthState "cid-w" (Json.str "tok-6") none rfl rfl
  exact ⟨h.1, h.2 rfl⟩

/-- Claim C7 counterexample: the startup path consumes no bootstrap token.
In an environment that does carry a candidate bootstrap token alongside
the client credentials, startup with an absent artifact still ends with no
installed credential record and no current token — the ambient credential
does not equal the configured bootstrap token. -/
theorem startup_ignores_bootstrap_token :
    envGet [("GOOGLE_CLIENT_ID", "cid"), ("GOOGLE_CLIENT_SECRET", "sec"), ("BOOTSTRAP_TOKEN", "boot")] "BOOTSTRAP_TOKEN" = some "boot" ∧
    credentialsOf (startupState [("GOOGLE_CLIENT_ID", "cid"), ("GOOGLE_CLIENT_SECRET", "sec"), ("BOOTSTRAP_TOKEN", "boot")] (fun _ => none) none) = none ∧
    (startupState [("GOOGLE_CLIENT_ID", "cid"), ("GOOGLE_CLIENT_SECRET", "sec"), ("BOOTSTRAP_TOKEN", "boot")] (fun _ => none) none).currentAuthToken = none :=
  ⟨rfl, rfl, rfl⟩

/-- Claim C7 (amended): no initial bootstrap token input exists.  When the
token artifact is absent, or every content it holds trims to the empty
string, startup installs no ambient credential at all: the process begins
with an empty credential record, whatever the environment holds. -/
theorem startup_with_empty_artifact_installs_nothing
    (env : Env) (p : String → Option Json) (file : Option String)
    (h : ∀ s, file = some s → jsTrim s = "") :
    credentialsOf (startupState env p file) = none ∧
    (startupState env p file).currentAuthToken = none := by
  have hinit := initialize_from_initial_no_credentials env
  unfold startupState
  rcases file with _ | s
  · exact hinit
  · have hs : jsTrim s = "" := h s rfl
    simp only [readAndUpdateTokenFromFile, hs, if_pos]
    exact hinit

/-- Witness for the amended C7: startup over a whitespace-only artifact
installs nothing. -/
theorem startup_with_empty_artifact_installs_nothing_witness :
    credentialsOf (startupState [("GOOGLE_CLIENT_ID", "cid"), ("GOOGLE_CLIENT_SECRET", "sec")] (fun _ => none) (some " ")) = none ∧
    (startupState [("GOOGLE_CLIENT_ID", "cid"), ("GOOGLE_CLIENT_SECRET", "sec")] (fun _ => none) (some " ")).currentAuthToken = none :=
  startup_with_empty_artifact_installs_nothing _ _ _
    (by
      intro s hs
      injection hs with hs
      subst hs
      decide)

/-- Claim C8 counterexample: with `GOOGLE_CLIENT_ID` absent,
initialization returns normally leaving no ambient client (no error is
raised), a search call that supplies an override token still executes its
Drive request — with no authenticated client at all — and the scoped
builder returns `null` instead of failing with an identity-missing
error. -/
theorem missing_client_id_proceeds_unauthenticated :
    initializeGoogleAuthClient [] initialAuthState = initialAuthState ∧
    (initializeGoogleAuthClient [] initialAuthState).googleAuthClient = none ∧
    gdriveSearchClient (initializeGoogleAuthClient [] initialAuthState) { query := "q", token := some "any-token" } = none ∧
    (createTemporaryClient [] "any-token" initialAuthState).1 = none :=
  ⟨rfl, rfl, rfl, rfl⟩

/-- Claim C8 (amended): when `client_id` is absent, initialization leaves
the state unchanged without raising an error, the scoped builder yields
`null` rather than a client, and — when no ambient client exists — tool
calls execute their Drive requests with no authenticated client while
only the token-installation path fails with the not-configured error. -/
theorem missing_client_id_degraded_behavior
    (env : Env) (st : AuthState) (sa : SearchArgs) (tok : String) (a : Json) (r : Option Json)
    (hid : envGet env "GOOGLE_CLIENT_ID" = none) :
    initializeGoogleAuthClient env st = st ∧
    (createTemporaryClient env tok st).1 = none ∧
    (st.googleAuthClient = none →
      gdriveSearchClient st sa = none ∧ updateTokensOnClient a r st = Except.error ()) := by
  refine ⟨?_, ?_, ?_⟩
  · simp [initializeGoogleAuthClient, hid]
  · simp [createTemporaryClient, hid]
  · intro h
    exact ⟨by simp [gdriveSearchClient, driveGlobalAuth, h],
           by simp [updateTokensOnClient, h]⟩

/-- Witness for the amended C8 at an environment without the client id. -/
theorem missing_client_id_degraded_behavior_witness :
    initializeGoogleAuthClient [("OTHER", "x")] initialAuthState = initialAuthState ∧
    (createTemporaryClient [("OTHER", "x")] "tok-8" initialAuthState).1 = none ∧
    gdriveSearchClient initialAuthState { query := "q", token := some "tok-8" } = none := by
  have h := missing_client_id_degraded_behavior [("OTHER", "x")] initialAuthState
    { query := "q", token := some "tok-8" } "tok-8" (Json.str "a") none rfl
  exact ⟨h.1, h.2.1, (h.2.2 rfl).1⟩

/-- Claim C9: building a per-request temporary client never mutates the
ambient state: the process globals after the construction are exactly the
ones before, and a constructed client carries the supplied token as sole
credential; using it through `readFileContent` selects exactly that
client, again reading the globals only. -/
theorem temporary_client_leaves_globals_unchanged
    (env : Env) (tok : String) (st : AuthState) :
    (createTemporaryClient env tok st).2 = st ∧
    (∀ c, (createTemporaryClient env tok st).1 = some c →
      c.credentials = some { access_token := Json.str tok, refresh_token := none } ∧
      readFileContentClient (some c) st = some c) := by
  unfold createTemporaryClient
  rcases he : envGet env "GOOGLE_CLIENT_ID" with _ | cid
  · exact ⟨rfl, by intro c hcl; cases hcl⟩
  · by_cases hcid : cid = ""
    · simp [hcid]
    · refine ⟨by simp [if_neg hcid], ?_⟩
      intro c hcl
      simp only [if_neg hcid] at hcl
      injection hcl with hcl
      subst hcl
      exact ⟨rfl, rfl⟩

/-- Witness for C9 at a concrete environment, token and ambient state. -/
theorem temporary_client_leaves_globals_unchanged_witness :
    (createTemporaryClient [("GOOGLE_CLIENT_ID", "cid")] "tok-9" ambientState).2 = ambientState ∧
    ({ clientId := "cid", clientSecret := none, credentials := some { access_token := Json.str "tok-9", refresh_token := none } } : OAuth2ClientState).credentials =
      some { access_token := Json.str "tok-9", refresh_token := none } := by
  have h := temporary_client_leaves_globals_unchanged [("GOOGLE_CLIENT_ID", "cid")] "tok-9" ambientState
  exact ⟨h.1, (h.2 _ rfl).1⟩

end GDrive
